import Mathlib

/-!
Verification of the ricecooker sources against their specification.

The embedded code comes from two Python modules:
  * `examples/oldexamples/large_wikipedia_chef.py` — the wikipedia chef
    example: session/cache setup, URL normalization, and the fetch helper
    `make_request`;
  * `ricecooker/__main__.py` — the CLI entry point: docopt-driven argument
    validation, `single_run`, and the `WebSocketHandler` control channel.

Stateful Python is embedded as explicit state passing; Python exceptions
become explicit result constructors; side effects (printing, reporting,
network frames) become event traces.
-/

namespace Ricecooker

/-! ## Wikipedia chef: URL normalization (`make_fully_qualified_url`) -/

/-- Python `s.startswith(p)` on the underlying character lists: `p` must
match the front of `s` character by character. -/
def startsWithChars : List Char → List Char → Bool
  | _, [] => true
  | [], _ :: _ => false
  | c :: s, d :: p => c == d && startsWithChars s p

/-- Python `s.startswith(p)` for strings. -/
def pyStartsWith (s p : String) : Bool :=
  startsWithChars s.data p.data

/-- Result of `make_fully_qualified_url`: either the qualified URL or the
`AssertionError` the function raises on a URL it cannot resolve (the spec
calls this outcome `MalformedURLError`). -/
inductive UrlResult where
  | ok (url : String)
  | malformed (msg : String)
deriving DecidableEq

/-- Embedding of `make_fully_qualified_url` from
`large_wikipedia_chef.py` lines 34-40:
```
def make_fully_qualified_url(url):
    if url.startswith("//"):
        return "https:" + url
    if url.startswith("/"):
        return "https://en.wikipedia.org" + url
    assert url.startswith("http"), "Bad URL (relative to unknown location): " + url
    return url
``` -/
def make_fully_qualified_url (url : String) : UrlResult :=
  if pyStartsWith url "//" then
    .ok ("https:" ++ url)
  else if pyStartsWith url "/" then
    .ok ("https://en.wikipedia.org" ++ url)
  else if pyStartsWith url "http" then
    .ok url
  else
    .malformed ("Bad URL (relative to unknown location): " ++ url)

/-- A URL is absolute http(s) when it carries an explicit `http://` or
`https://` scheme.  Used to state the spec claim about already-absolute
URLs. -/
def isAbsoluteHttpUrl (url : String) : Bool :=
  pyStartsWith url "http://" || pyStartsWith url "https://"

/-! ## Wikipedia chef: the fetch helper (`make_request`) -/

/-- A `requests` response as observed by `make_request`: HTTP status code,
the `from_cache` flag set by the CacheControl adapter, and the body bytes. -/
structure Response where
  status_code : Nat
  from_cache : Bool
  content : List Nat
deriving DecidableEq

/-- Possible outcomes of a fetch at this layer.  The source function can
only ever produce `resp`; the other constructors exist so that the spec's
claimed error outcomes (`FetchError{status}`, `DownloadExhaustedError`)
are statable against the embedding. -/
inductive FetchOutcome where
  | resp (r : Response)
  | fetchError (status : Nat)
  | downloadExhausted
deriving DecidableEq

/-- Embedding of `make_request` from `large_wikipedia_chef.py` lines 43-49:
```
def make_request(url, *args, **kwargs):
    response = sess.get(url, *args, **kwargs)
    if response.status_code != 200:
        print("NOT FOUND:", url)
    elif not response.from_cache:
        print("NOT CACHED:", url)
    return response
```
`get` abstracts `sess.get` as a function from attempt index to response;
the source performs exactly one call, at attempt index `0`.  The second
component is the list of printed diagnostics. -/
def make_request (get : Nat → Response) (url : String) :
    FetchOutcome × List String :=
  let response := get 0
  if response.status_code ≠ 200 then
    (.resp response, ["NOT FOUND: " ++ url])
  else if !response.from_cache then
    (.resp response, ["NOT CACHED: " ++ url])
  else
    (.resp response, [])

/-! ## Wikipedia chef: session adapter mounts -/

/-- The freshness heuristic an adapter was constructed with: `basic_adapter`
has none, `forever_adapter` has `CacheForeverHeuristic()`. -/
inductive Heuristic where
  | default
  | cacheForever
deriving DecidableEq

/-- A `CacheControlAdapter` as far as the mounted session distinguishes
them: by the heuristic passed at construction. -/
structure Adapter where
  heuristic : Heuristic
deriving DecidableEq

/-- `basic_adapter = CacheControlAdapter(cache=cache)`
(`large_wikipedia_chef.py` line 27). -/
def basic_adapter : Adapter := ⟨.default⟩

/-- `forever_adapter = CacheControlAdapter(heuristic=CacheForeverHeuristic(), cache=cache)`
(`large_wikipedia_chef.py` line 28). -/
def forever_adapter : Adapter := ⟨.cacheForever⟩

/-- The adapters mounted on the module session, keyed by URL scheme
part, after `large_wikipedia_chef.py` lines 30-31 run:
```
sess.mount("http://", forever_adapter)
sess.mount("https://", forever_adapter)
```
`Session.mount` keeps the mount list ordered by key length descending, so
the later, longer `https://` key is consulted first. -/
def sessionMounts : List (String × Adapter) :=
  [("https://", forever_adapter), ("http://", forever_adapter)]

/-- `Session.get_adapter`: first mounted entry whose key the URL starts
with, if any. -/
def get_adapter (url : String) : Option Adapter :=
  (sessionMounts.find? (fun p => pyStartsWith url p.1)).map (fun p => p.2)

/-! ## CLI entry point: `__main__.py` argument validation -/

/-- ASCII decimal digit test, as Python classifies characters for `int()`. -/
def isAsciiDigit (c : Char) : Bool :=
  '0' ≤ c && c ≤ '9'

/-- Python whitespace characters stripped by `int()` before parsing. -/
def isPyWhitespace (c : Char) : Bool :=
  c = ' ' || c = '\t' || c = '\n' || c = '\x0b' || c = '\x0c' || c = '\r'

/-- After the first digit, a Python integer literal continues with digits,
with single underscores allowed between digits. -/
def pyDigitsRest : List Char → Bool
  | [] => true
  | ['_'] => false
  | '_' :: c :: rest => isAsciiDigit c && pyDigitsRest rest
  | c :: rest => isAsciiDigit c && pyDigitsRest rest

/-- A nonempty digit run with optional grouping underscores. -/
def pyDigitRun : List Char → Bool
  | [] => false
  | c :: rest => isAsciiDigit c && pyDigitsRest rest

/-- Whether Python `int(s)` succeeds for the decimal string `s` (embedding
of the CPython rule: optional surrounding whitespace, one optional `+`/`-`
sign, then a nonempty digit run with optional grouping underscores; any
other string raises `ValueError`). -/
def pyIntParses (s : String) : Bool :=
  let t := (s.data.dropWhile isPyWhitespace).reverse.dropWhile isPyWhitespace |>.reverse
  match t with
  | '+' :: rest => pyDigitRun rest
  | '-' :: rest => pyDigitRun rest
  | rest => pyDigitRun rest

/-- The value Python `int(s)` computes when `pyIntParses s` holds: digits
folded in base 10, negated after a `-` sign. -/
def pyIntValue (s : String) : Int :=
  let t := (s.data.dropWhile isPyWhitespace).reverse.dropWhile isPyWhitespace |>.reverse
  let digitsOf : List Char → Nat := fun cs =>
    (cs.filter (fun c => c ≠ '_')).foldl (fun acc c => 10 * acc + (c.toNat - 48)) 0
  match t with
  | '+' :: rest => (digitsOf rest : Int)
  | '-' :: rest => -(digitsOf rest : Int)
  | rest => (digitsOf rest : Int)

/-- Python `str.upper()` on one ASCII character. -/
def pyCharUpper (c : Char) : Char :=
  if 'a' ≤ c && c ≤ 'z' then Char.ofNat (c.toNat - 32) else c

/-- Python `str.upper()` (ASCII subset, which covers the step names). -/
def pyUpper (s : String) : String :=
  ⟨s.data.map pyCharUpper⟩

/-- Modelled from the spec: the step enum `Status` lives in
`ricecooker.managers.progress`, which is not among these sources.  Its
member names are taken from the steps enumerated in the `__main__.py`
usage text (lines 24-35) and spec section 3:
`LAST, INIT, CONSTRUCT_CHANNEL, CREATE_TREE, DOWNLOAD_FILES,
GET_FILE_DIFF, START_UPLOAD, UPLOADING_FILES, UPLOAD_CHANNEL,
PUBLISH_CHANNEL, DONE`.  This is `all_steps = [s.name for s in Status]`
from `__main__.py` line 156. -/
def all_steps : List String :=
  ["LAST", "INIT", "CONSTRUCT_CHANNEL", "CREATE_TREE", "DOWNLOAD_FILES",
   "GET_FILE_DIFF", "START_UPLOAD", "UPLOADING_FILES", "UPLOAD_CHANNEL",
   "PUBLISH_CHANNEL", "DONE"]

/-- The command-line flags relevant to start-policy and retry validation.
`step` is the raw `--step` value when the flag was supplied.
`downloadAttempts` is the raw `--download-attempts` value when supplied
(docopt substitutes the usage-text default `"3"` otherwise). -/
structure CLIFlags where
  resume : Bool
  reset : Bool
  step : Option String
  downloadAttempts : Option String
  daemon : Bool
deriving DecidableEq

/-- The argument record docopt hands to the rest of `__main__`. -/
structure ParsedArgs where
  resume : Bool
  reset : Bool
  step : String
  downloadAttempts : String
  daemon : Bool
deriving DecidableEq

/-- Modelled from the spec: `docopt` is an external library; this embeds
the semantics of the usage pattern from the `__main__.py` docstring,
`[--resume [--step=<step>] | --reset]`, together with the option defaults
`--step=<step> [default: last]` and `--download-attempts=<n> [default: 3]`.
A flag combination outside the pattern (both `--resume` and `--reset`, or
`--step` without `--resume`) makes `docopt` print usage and exit nonzero,
embedded as `none`. -/
def docopt_match (flags : CLIFlags) : Option ParsedArgs :=
  if flags.resume && flags.reset then
    none
  else if flags.step.isSome && !flags.resume then
    none
  else
    some ⟨flags.resume, flags.reset, flags.step.getD "last",
          flags.downloadAttempts.getD "3", flags.daemon⟩

/-- How an invocation of `__main__` resolves before any pipeline work:
either an error raised during parsing/validation, or dispatch into
`daemon_mode` / `single_run` with the validated arguments.  Only the
`dispatch` constructor carries pipeline work; no session state is touched
on the error constructors. -/
inductive MainResult where
  | usageExit
  | invalidUsage (msg : String)
  | dispatch (daemon : Bool) (args : ParsedArgs)
deriving DecidableEq

/-- Embedding of the `__main__` guard block (`__main__.py` lines 142-172):
docopt parse, then the step-name check
```
step = arguments['--step']
all_steps = [s.name for s in Status]
if step.upper() not in all_steps:
  raise InvalidUsageException(...)
```
then the download-attempts check
```
try:
  int(arguments['--download-attempts'])
except ValueError:
  raise InvalidUsageException("Invalid argument: Download-attempts must be an integer.")
```
then dispatch on `--daemon`.  (The OPTIONS kwarg loop is skipped: these
claims concern invocations without extra `key=value` arguments.) -/
def main_validate (flags : CLIFlags) : MainResult :=
  match docopt_match flags with
  | none => .usageExit
  | some args =>
    if !(all_steps.any (fun t => t = pyUpper args.step)) then
      .invalidUsage ("Invalid step " ++ args.step)
    else if !(pyIntParses args.downloadAttempts) then
      .invalidUsage "Invalid argument: Download-attempts must be an integer."
    else
      .dispatch args.daemon args

/-! ## RetryingCache: the Forever freshness policy -/

/-- The cache store keyed by URL, as populated by the session's adapter. -/
structure CacheState where
  entries : List (String × List Nat)
deriving DecidableEq

/-- One observed fetch: the bytes returned, whether they came from the
cache, how many network calls were made, and the cache state afterwards. -/
structure ForeverFetch where
  bytes : List Nat
  servedFromCache : Bool
  networkCalls : Nat
  finalState : CacheState
deriving DecidableEq

/-- Modelled from the spec: the `Forever` freshness policy is implemented
by `CacheForeverHeuristic` in `ricecooker.utils.caching`, which is not
among these sources.  Per spec section 4.2, a `Forever`-policy cache hit
returns immediately without contacting the network, and a miss performs
the network fetch and stores the result; per section 3, a `Forever` entry
is never revalidated once present.  `net` abstracts the network. -/
def fetchForever (net : String → List Nat) (st : CacheState) (url : String) :
    ForeverFetch :=
  match st.entries.lookup url with
  | some b => ⟨b, true, 0, st⟩
  | none =>
    let b := net url
    ⟨b, false, 1, ⟨(url, b) :: st.entries⟩⟩

/-! ## `single_run`: terminal status reporting -/

/-- Outcome of the `uploadchannel(...)` call inside `single_run`: it either
returns normally or raises an exception carrying a message. -/
inductive UploadOutcome where
  | success
  | failure (e : String)
deriving DecidableEq

/-- Externally visible effects of `single_run`, in order: a stage reported
to `config.SUSHI_BAR_CLIENT`, a message logged via
`config.LOGGER.critical`, the reporter's `close()`, or the exception
re-raised to the caller by the bare `raise`. -/
inductive RunEvent where
  | reportStage (s : String)
  | logCritical (e : String)
  | closeReporter
  | reraise (e : String)
deriving DecidableEq

/-- Embedding of `single_run` from `__main__.py` lines 111-133:
```
try:
    uploadchannel(...)
    config.SUSHI_BAR_CLIENT.report_stage('COMPLETED', 0)
except Exception as e:
    config.SUSHI_BAR_CLIENT.report_stage('FAILURE', 0)
    config.LOGGER.critical(e)
    raise
finally:
    config.SUSHI_BAR_CLIENT.close()
```
The `finally` close runs on both paths, before the re-raised exception
propagates to the caller. -/
def single_run (outcome : UploadOutcome) : List RunEvent :=
  match outcome with
  | .success =>
    [.reportStage "COMPLETED", .closeReporter]
  | .failure e =>
    [.reportStage "FAILURE", .logCritical e, .closeReporter, .reraise e]

/-! ## `WebSocketHandler`: the control channel -/

/-- The mutable state of a `WebSocketHandler` (`__main__.py` lines 56-61):
`ws_opened` is the flag toggled by the open/close callbacks, `ws_present`
records whether `self.ws` holds a connection object (it is `None` until
the first `__connect`), and `stop_event` is the `threading.Event`. -/
structure WSState where
  ws_opened : Bool
  ws_present : Bool
  stop_event : Bool
deriving DecidableEq

/-- `__init__`: `ws_opened = False`, `ws = None`, stop event clear. -/
def WSState.init : WSState := ⟨false, false, false⟩

/-- `__connect`: builds a fresh `WebSocketApp` and stores it in `self.ws`;
the socket is not yet open. -/
def ws_connect (s : WSState) : WSState :=
  { s with ws_present := true }

/-- `__on_open` callback: `self.ws_opened = True`. -/
def on_open (s : WSState) : WSState :=
  { s with ws_opened := true }

/-- `__on_close` callback: `self.ws_opened = False`. -/
def on_close (s : WSState) : WSState :=
  { s with ws_opened := false }

/-- `stopped()`: `self._stop_event.is_set()`. -/
def WSState.stopped (s : WSState) : Bool :=
  s.stop_event

/-- Embedding of `send` (`__main__.py` lines 90-92):
```
def send(self, data):
    if self.ws_opened:
        self.ws.send(data)
```
Returns the unchanged state and the list of frames put on the wire. -/
def WSState.send (s : WSState) (data : String) : WSState × List String :=
  if s.ws_opened then (s, [data]) else (s, [])

/-- Result of `stop()`: normal return, or the `AttributeError` Python
raises when `self.ws` is still `None`.  Both carry the state afterwards. -/
inductive StopResult where
  | ok (s : WSState)
  | attributeError (s : WSState)
deriving DecidableEq

/-- Embedding of `stop` (`__main__.py` lines 94-96):
```
def stop(self):
    self._stop_event.set()
    self.ws.close()
```
The event is set first; `self.ws.close()` then closes the connection
(firing `__on_close`) when one exists, and raises `AttributeError` when
`self.ws` is `None`. -/
def WSState.stop (s : WSState) : StopResult :=
  let s1 := { s with stop_event := true }
  if s1.ws_present then
    .ok { s1 with ws_opened := false }
  else
    .attributeError s1

/-- The state effect of a successful `stop()` during a connection episode:
event set, socket closed. -/
def stopState (s : WSState) : WSState :=
  { s with stop_event := true, ws_opened := false }

/-- Embedding of the reconnect loop `run` (`__main__.py` lines 82-85):
```
def run(self):
    while not self.stopped():
        self.__connect()
        self.ws.run_forever()
```
One loop iteration connects and then blocks in `run_forever` until the
connection closes or errors; `script` records, per episode, whether
another thread called `stop()` during that episode (which sets the event
and force-closes the socket, ending `run_forever`).  `fuel` bounds the
number of unfolded iterations; the pair returned is the handler state and
the total number of connection attempts made. -/
def wsRun (fuel : Nat) (script : Nat → Bool) (s : WSState) (attempts : Nat) :
    WSState × Nat :=
  match fuel with
  | 0 => (s, attempts)
  | Nat.succ fuel =>
    if s.stopped then
      (s, attempts)
    else
      let s1 := on_close (on_open (ws_connect s))
      let s2 := if script attempts then stopState s1 else s1
      wsRun fuel script s2 (attempts + 1)

/-! ## Helper lemmas -/

/-- Matching a longer pattern matches every front part of it. -/
theorem startsWithChars_append {s p q : List Char}
    (h : startsWithChars s (p ++ q) = true) : startsWithChars s p = true := by
  induction p generalizing s with
  | nil => cases s <;> rfl
  | cons d p ih =>
    cases s with
    | nil => simp [startsWithChars] at h
    | cons c s =>
      simp only [List.cons_append, startsWithChars, Bool.and_eq_true] at h ⊢
      exact ⟨h.1, ih h.2⟩

/-- A string matching a pattern headed by `c` cannot match a pattern
headed by a different character. -/
theorem startsWithChars_head_ne {s : List Char} {c d : Char} {p q : List Char}
    (h : startsWithChars s (c :: p) = true) (hne : (c == d) = false) :
    startsWithChars s (d :: q) = false := by
  cases s with
  | nil => simp [startsWithChars] at h
  | cons a s =>
    simp only [startsWithChars, Bool.and_eq_true, beq_iff_eq] at h
    simp only [startsWithChars, Bool.and_eq_false_iff]
    left
    rw [h.1]
    exact hne

/-! ## C2: URL normalization -/

/-- C2 counterexample: the claim says every input that is not an absolute
http(s) URL is rejected with `MalformedURLError`, but the code only checks
the text before the colon against the bare `"http"` string: the input
`"httpx://example.org/a"` carries scheme `httpx`, is not an absolute
http(s) URL, and is returned unchanged rather than rejected. -/
theorem make_fully_qualified_url_claim_counterexample :
    isAbsoluteHttpUrl "httpx://example.org/a" = false ∧
    make_fully_qualified_url "httpx://example.org/a" =
      .ok "httpx://example.org/a" := by
  constructor
  · decide
  · decide

/-- C2 (amended): `make_fully_qualified_url` promotes a protocol-relative
URL (`//...`) to `https`, resolves a root-relative URL (`/...`) against
the base origin `https://en.wikipedia.org`, returns every already-absolute
http(s) URL unchanged, and rejects exactly the inputs that start with none
of `//`, `/`, `http` with an `AssertionError` (`MalformedURLError`) — so
a non-http(s) input that happens to start with `http`, such as
`httpx://...`, is returned unchanged instead of being rejected. -/
theorem make_fully_qualified_url_spec (url : String) :
    (pyStartsWith url "//" = true →
        make_fully_qualified_url url = .ok ("https:" ++ url))
  ∧ (pyStartsWith url "//" = false → pyStartsWith url "/" = true →
        make_fully_qualified_url url = .ok ("https://en.wikipedia.org" ++ url))
  ∧ (isAbsoluteHttpUrl url = true → make_fully_qualified_url url = .ok url)
  ∧ (pyStartsWith url "//" = false → pyStartsWith url "/" = false →
        pyStartsWith url "http" = false →
        make_fully_qualified_url url =
          .malformed ("Bad URL (relative to unknown location): " ++ url)) := by
  refine ⟨fun h1 => ?_, fun h1 h2 => ?_, fun habs => ?_, fun h1 h2 h3 => ?_⟩
  · simp [make_fully_qualified_url, h1]
  · simp [make_fully_qualified_url, h1, h2]
  · have hhttp : pyStartsWith url "http" = true := by
      rcases Bool.or_eq_true _ _ |>.mp habs with h | h
      · exact startsWithChars_append (p := "http".data) (q := "://".data) h
      · exact startsWithChars_append (p := "http".data) (q := "s://".data) h
    have hh : startsWithChars url.data ('h' :: "ttp".data) = true := hhttp
    have hslash : pyStartsWith url "/" = false :=
      startsWithChars_head_ne hh (by decide)
    have hslash2 : pyStartsWith url "//" = false :=
      startsWithChars_head_ne hh (by decide)
    simp [make_fully_qualified_url, hslash, hslash2, hhttp]
  · simp [make_fully_qualified_url, h1, h2, h3]

/-- Concrete instances of the amended C2 claim, matching the examples in
the spec's testable properties. -/
theorem make_fully_qualified_url_spec_witness :
    make_fully_qualified_url "//en.wikipedia.org/x" =
        .ok "https://en.wikipedia.org/x"
  ∧ make_fully_qualified_url "/wiki/Y" = .ok "https://en.wikipedia.org/wiki/Y"
  ∧ make_fully_qualified_url "https://en.wikipedia.org/wiki/Z" =
        .ok "https://en.wikipedia.org/wiki/Z"
  ∧ make_fully_qualified_url "ftp://host/f" =
        .malformed "Bad URL (relative to unknown location): ftp://host/f" :=
  ⟨(make_fully_qualified_url_spec "//en.wikipedia.org/x").1 (by decide),
   (make_fully_qualified_url_spec "/wiki/Y").2.1 (by decide) (by decide),
   (make_fully_qualified_url_spec "https://en.wikipedia.org/wiki/Z").2.2.1
     (by decide),
   (make_fully_qualified_url_spec "ftp://host/f").2.2.2 (by decide) (by decide)
     (by decide)⟩

/-! ## C1: the fetch helper has no retry layer -/

/-- C1 counterexample: with a scripted network where attempts 0 and 1
return status 500 and attempt 2 would return status 200 (the spec's
fail-fail-succeed sequence), `make_request` returns the attempt-0
response object itself, with only a printed diagnostic: the 500 status is
not surfaced as `FetchError`, no retry is made, and no
`DownloadExhaustedError` arises under any attempt budget. -/
theorem make_request_claim_counterexample :
    (make_request
        (fun n => if n < 2 then ⟨500, false, []⟩ else ⟨200, false, [1]⟩)
        "https://en.wikipedia.org/wiki/A")
      = (.resp ⟨500, false, []⟩,
         ["NOT FOUND: https://en.wikipedia.org/wiki/A"])
  ∧ (make_request
        (fun n => if n < 2 then ⟨500, false, []⟩ else ⟨200, false, [1]⟩)
        "https://en.wikipedia.org/wiki/A").1
      ≠ .fetchError 500
  ∧ (make_request
        (fun n => if n < 2 then ⟨500, false, []⟩ else ⟨200, false, [1]⟩)
        "https://en.wikipedia.org/wiki/A").1
      ≠ .downloadExhausted := by
  refine ⟨rfl, ?_, ?_⟩ <;> decide

/-- C1 (amended): `make_request` performs a single network call and always
returns that response unchanged — it never raises `FetchError` or
`DownloadExhaustedError` and never retries (its result depends only on
attempt 0 of the network script).  A non-200 status is only logged as
`NOT FOUND: url`; a 200 response not served from cache is logged as
`NOT CACHED: url`; a 200 cached response is returned silently. -/
theorem make_request_characterization (get : Nat → Response) (url : String) :
    (make_request get url).1 = .resp (get 0)
  ∧ ((get 0).status_code ≠ 200 →
        (make_request get url).2 = ["NOT FOUND: " ++ url])
  ∧ ((get 0).status_code = 200 → (get 0).from_cache = false →
        (make_request get url).2 = ["NOT CACHED: " ++ url])
  ∧ ((get 0).status_code = 200 → (get 0).from_cache = true →
        (make_request get url).2 = [])
  ∧ (∀ get2 : Nat → Response, get 0 = get2 0 →
        make_request get url = make_request get2 url) := by
  refine ⟨?_, fun h => ?_, fun h hc => ?_, fun h hc => ?_, fun get2 h0 => ?_⟩
  · dsimp only [make_request]
    split
    · rfl
    · split <;> rfl
  · simp [make_request, h]
  · simp [make_request, h, hc]
  · simp [make_request, h, hc]
  · unfold make_request
    rw [h0]

/-- Concrete instances of the amended C1 claim: a 404 is logged NOT FOUND
and returned, a fresh 200 is logged NOT CACHED, a cached 200 is silent. -/
theorem make_request_characterization_witness :
    (make_request (fun _ => ⟨404, false, []⟩) "u").2 = ["NOT FOUND: u"]
  ∧ (make_request (fun _ => ⟨200, false, [7]⟩) "u").2 = ["NOT CACHED: u"]
  ∧ (make_request (fun _ => ⟨200, true, [7]⟩) "u").2 = []
  ∧ (make_request (fun _ => ⟨200, true, [7]⟩) "u").1 = .resp ⟨200, true, [7]⟩ :=
  ⟨(make_request_characterization (fun _ => ⟨404, false, []⟩) "u").2.1
      (by decide),
   (make_request_characterization (fun _ => ⟨200, false, [7]⟩) "u").2.2.1
      rfl rfl,
   (make_request_characterization (fun _ => ⟨200, true, [7]⟩) "u").2.2.2.1
      rfl rfl,
   (make_request_characterization (fun _ => ⟨200, true, [7]⟩) "u").1⟩

/-! ## C3: start-policy validation -/

/-- Inverting a successful docopt parse of the usage pattern
`[--resume [--step=<step>] | --reset]`. -/
theorem docopt_match_eq_some {flags : CLIFlags} {args : ParsedArgs}
    (h : docopt_match flags = some args) :
    (flags.resume && flags.reset) = false
    ∧ (flags.step.isSome = true → flags.resume = true)
    ∧ args = ⟨flags.resume, flags.reset, flags.step.getD "last",
              flags.downloadAttempts.getD "3", flags.daemon⟩ := by
  unfold docopt_match at h
  split at h
  · exact absurd h (by simp)
  · split at h
    · exact absurd h (by simp)
    · rename_i h1 h2
      injection h with h
      refine ⟨by simpa using h1, ?_, h.symm⟩
      intro hs
      by_contra hr
      simp only [Bool.not_eq_true] at hr
      exact h2 (by simp [hs, hr])

/-- C3: supplying both `--resume` and `--reset`, or `--step` without
`--resume`, makes docopt reject the invocation (usage error, nonzero
exit); a `--step` value whose uppercased name is not a `Status` member is
rejected with `InvalidUsageException` before dispatch; and the pipeline is
dispatched (`single_run`/`daemon_mode`, the only constructor that touches
any session state) only when the flag combination is valid and the step
name is known.  Both rejection constructors are the spec's
`ConfigurationError`. -/
theorem main_start_policy_validation (flags : CLIFlags) :
    (flags.resume = true → flags.reset = true →
        main_validate flags = .usageExit)
  ∧ (flags.step.isSome = true → flags.resume = false →
        main_validate flags = .usageExit)
  ∧ (∀ st, flags.step = some st →
        all_steps.any (fun t => t = pyUpper st) = false →
        main_validate flags = .usageExit ∨
          main_validate flags = .invalidUsage ("Invalid step " ++ st))
  ∧ (∀ d args, main_validate flags = .dispatch d args →
        (flags.resume && flags.reset) = false
        ∧ (flags.step.isSome = true → flags.resume = true)
        ∧ all_steps.any (fun t => t = pyUpper args.step) = true) := by
  refine ⟨fun h1 h2 => ?_, fun h1 h2 => ?_, fun st hstep hbad => ?_,
    fun d args h => ?_⟩
  · simp [main_validate, docopt_match, h1, h2]
  · simp [main_validate, docopt_match, h1, h2]
  · by_cases hr : flags.resume = true
    · by_cases hre : flags.reset = true
      · left
        simp [main_validate, docopt_match, hr, hre]
      · right
        simp only [Bool.not_eq_true] at hre
        simp [main_validate, docopt_match, hr, hre, hstep, hbad]
    · left
      simp only [Bool.not_eq_true] at hr
      simp [main_validate, docopt_match, hr, hstep]
  · unfold main_validate at h
    rcases hd : docopt_match flags with _ | args2
    · rw [hd] at h
      exact absurd h (by simp)
    · rw [hd] at h
      obtain ⟨hflags, hstepreq, hargs⟩ := docopt_match_eq_some hd
      refine ⟨hflags, hstepreq, ?_⟩
      by_cases hok : all_steps.any (fun t => t = pyUpper args2.step) = true
      · have hargs2 : args = args2 := by
          rcases hp : pyIntParses args2.downloadAttempts with _ | _
          · simp [hok, hp] at h
          · simp [hok, hp] at h
            exact h.2.symm
        rw [hargs2]
        exact hok
      · simp only [Bool.not_eq_true] at hok
        simp [hok] at h

/-- Concrete instances of C3: resume+reset is a usage error, step without
resume is a usage error, an unknown step name is rejected, and a valid
resume+step invocation dispatches with a validated step. -/
theorem main_start_policy_validation_witness :
    main_validate ⟨true, true, none, none, false⟩ = .usageExit
  ∧ main_validate ⟨false, false, some "INIT", none, false⟩ = .usageExit
  ∧ (main_validate ⟨true, false, some "FOO", none, false⟩ = .usageExit ∨
      main_validate ⟨true, false, some "FOO", none, false⟩ =
        .invalidUsage "Invalid step FOO")
  ∧ all_steps.any
      (fun t => t = pyUpper
        (⟨true, false, "construct_channel", "3", false⟩ : ParsedArgs).step)
      = true :=
  ⟨(main_start_policy_validation ⟨true, true, none, none, false⟩).1 rfl rfl,
   (main_start_policy_validation ⟨false, false, some "INIT", none, false⟩).2.1
     rfl rfl,
   (main_start_policy_validation ⟨true, false, some "FOO", none, false⟩).2.2.1
     "FOO" rfl (by decide),
   ((main_start_policy_validation
       ⟨true, false, some "construct_channel", none, false⟩).2.2.2
     false ⟨true, false, "construct_channel", "3", false⟩ (by decide)).2.2⟩

/-! ## C4: download-attempts validation -/

/-- C4 counterexample: the claim says zero and negative values fail before
any pipeline work starts, but `int('0')` and `int('-2')` succeed in
Python, so `--download-attempts=0` and `--download-attempts=-2` pass
validation and dispatch into the pipeline. -/
theorem download_attempts_zero_accepted :
    main_validate ⟨false, false, none, some "0", false⟩ =
        .dispatch false ⟨false, false, "last", "0", false⟩
  ∧ main_validate ⟨false, false, none, some "-2", false⟩ =
        .dispatch false ⟨false, false, "last", "-2", false⟩
  ∧ pyIntValue "0" = 0 ∧ pyIntValue "-2" = -2 :=
  ⟨by decide, by decide, by decide, by decide⟩

/-- C4 (amended): `--download-attempts` must parse as a Python integer:
a non-numeric value is rejected with `InvalidUsageException` before
dispatch, and no invocation dispatches into the pipeline with an
unparsable value — but zero and negative integers are accepted, since the
check is `int(...)` inside `try/except ValueError` with no sign or
positivity test. -/
theorem download_attempts_integer_check (flags : CLIFlags)
    (args : ParsedArgs) :
    (∀ d a, main_validate flags = .dispatch d a →
        pyIntParses a.downloadAttempts = true)
  ∧ (docopt_match flags = some args →
        all_steps.any (fun t => t = pyUpper args.step) = true →
        pyIntParses args.downloadAttempts = false →
        main_validate flags =
          .invalidUsage "Invalid argument: Download-attempts must be an integer.") := by
  constructor
  · intro d a h
    unfold main_validate at h
    rcases hd : docopt_match flags with _ | args2
    · rw [hd] at h
      exact absurd h (by simp)
    · rw [hd] at h
      by_cases hok : all_steps.any (fun t => t = pyUpper args2.step) = true
      · rcases hp : pyIntParses args2.downloadAttempts with _ | _
        · simp [hok, hp] at h
        · simp [hok, hp] at h
          rw [← h.2]
          exact hp
      · simp only [Bool.not_eq_true] at hok
        simp [hok] at h
  · intro hd hok hp
    simp [main_validate, hd, hok, hp]

/-- Concrete instances of C4 as amended: `"3"` parses and `"abc"` is
rejected with the source's error message. -/
theorem download_attempts_integer_check_witness :
    pyIntParses "3" = true
  ∧ main_validate ⟨false, false, none, some "abc", false⟩ =
      .invalidUsage "Invalid argument: Download-attempts must be an integer." :=
  ⟨(download_attempts_integer_check ⟨false, false, none, some "3", false⟩
      ⟨false, false, "last", "3", false⟩).1 false
      ⟨false, false, "last", "3", false⟩ (by decide),
   (download_attempts_integer_check ⟨false, false, none, some "abc", false⟩
      ⟨false, false, "last", "abc", false⟩).2 (by decide) (by decide)
      (by decide)⟩

/-! ## C5: Forever-policy fetches -/

/-- C5: fetching a URL a second time under the `Forever` policy returns
bytes identical to the first result, reports `servedFromCache = true`, and
makes zero network calls; and a `Forever` entry already present is served
as-is with zero network calls and an unchanged store — it is never
revalidated against the network. -/
theorem forever_fetch_idempotent (net : String → List Nat) (st : CacheState)
    (url : String) :
    (fetchForever net (fetchForever net st url).finalState url).bytes
        = (fetchForever net st url).bytes
  ∧ (fetchForever net (fetchForever net st url).finalState url).servedFromCache
        = true
  ∧ (fetchForever net (fetchForever net st url).finalState url).networkCalls
        = 0
  ∧ (∀ b, st.entries.lookup url = some b →
        fetchForever net st url = ⟨b, true, 0, st⟩) := by
  have hmain : fetchForever net (fetchForever net st url).finalState url
      = ⟨(fetchForever net st url).bytes, true, 0,
         (fetchForever net st url).finalState⟩ := by
    unfold fetchForever
    rcases hl : st.entries.lookup url with _ | b
    · simp [hl, List.lookup]
    · simp [hl]
  refine ⟨by rw [hmain], by rw [hmain], by rw [hmain], fun b hb => ?_⟩
  unfold fetchForever
  rw [hb]

/-- Concrete instance of C5: a URL cached with bytes `[7]` is served from
the cache with no network call and an unchanged store. -/
theorem forever_fetch_idempotent_witness :
    fetchForever (fun _ => [9]) ⟨[("u", [7])]⟩ "u" = ⟨[7], true, 0, ⟨[("u", [7])]⟩⟩ :=
  (forever_fetch_idempotent (fun _ => [9]) ⟨[("u", [7])]⟩ "u").2.2.2 [7]
    (by decide)

/-! ## C6: `single_run` terminal status reporting -/

/-- C6: when `uploadchannel` returns normally, `single_run` reports
`COMPLETED`; when it raises, `single_run` reports `FAILURE`, logs the
exception and re-raises it to the caller; and on both exit paths the
status reporter is closed (the `finally` close precedes the re-raised
propagation). -/
theorem single_run_status_reporting (outcome : UploadOutcome) :
    RunEvent.closeReporter ∈ single_run outcome
  ∧ (outcome = .success →
        single_run outcome = [.reportStage "COMPLETED", .closeReporter])
  ∧ (∀ e, outcome = .failure e →
        single_run outcome =
          [.reportStage "FAILURE", .logCritical e, .closeReporter,
           .reraise e])
  ∧ (∀ e, RunEvent.reraise e ∈ single_run outcome → outcome = .failure e) := by
  cases outcome with
  | success =>
    refine ⟨?_, ?_, ?_, ?_⟩
    · simp [single_run]
    · intro _
      rfl
    · intro e he
      exact absurd he (by simp)
    · intro e he
      simp [single_run] at he
  | failure e0 =>
    refine ⟨?_, ?_, ?_, ?_⟩
    · simp [single_run]
    · intro he
      exact absurd he (by simp)
    · intro e he
      injection he with h
      rw [h]
      rfl
    · intro e he
      simp [single_run] at he
      rw [he]

/-- Concrete instances of C6 on both exit paths. -/
theorem single_run_status_reporting_witness :
    single_run .success = [.reportStage "COMPLETED", .closeReporter]
  ∧ single_run (.failure "boom") =
      [.reportStage "FAILURE", .logCritical "boom", .closeReporter,
       .reraise "boom"] :=
  ⟨(single_run_status_reporting .success).2.1 rfl,
   (single_run_status_reporting (.failure "boom")).2.2.1 "boom" rfl⟩

/-! ## C7: `send` outside the CONNECTED state -/

/-- C7: `send` called while the socket is not open (`ws_opened = false`,
which covers the spec's DISCONNECTED and CONNECTING states — `ws_opened`
becomes `true` only through the `on_open` callback, i.e. in CONNECTED)
returns without error, puts nothing on the wire, and leaves the handler
state unchanged (the message is dropped, not queued); conversely, any
transmitted frame implies `ws_opened = true`. -/
theorem send_noop_when_not_open (s : WSState) (data : String) :
    (s.ws_opened = false → s.send data = (s, []))
  ∧ ((s.send data).2 ≠ [] → s.ws_opened = true)
  ∧ (s.send data).1 = s := by
  refine ⟨fun h => ?_, fun h => ?_, ?_⟩
  · simp [WSState.send, h]
  · by_contra hc
    simp only [Bool.not_eq_true] at hc
    exact h (by simp [WSState.send, hc])
  · unfold WSState.send
    split <;> rfl

/-- Concrete instance of C7: a fresh handler (never connected) drops a
sent message with no outbound traffic. -/
theorem send_noop_when_not_open_witness :
    WSState.init.send "cmd" = (WSState.init, []) :=
  (send_noop_when_not_open WSState.init "cmd").1 rfl

/-! ## C8: the reconnect loop and the STOPPED state -/

/-- C8: the `run` loop re-attempts a connection after every close or error
for as long as stop has not been requested (with no stop request, the
attempt counter grows by one per loop iteration and the loop never
stops on its own); once the stop event is set the loop makes no further
connection attempt and returns immediately; the stop event becomes set
only through an explicit `stop()` request (the `script`); and no handler
operation — connect, the open/close callbacks, or `send` — ever changes
the stop event, so the STOPPED state is never left once entered. -/
theorem reconnect_loop_stop_semantics :
    (∀ fuel script (s : WSState) a, s.stopped = true →
        wsRun fuel script s a = (s, a))
  ∧ (∀ fuel script (s : WSState) a, s.stopped = false →
        (wsRun fuel script s a).1.stopped = true → ∃ k, script k = true)
  ∧ (∀ fuel (s : WSState) a, s.stopped = false →
        (wsRun fuel (fun _ => false) s a).2 = a + fuel
          ∧ (wsRun fuel (fun _ => false) s a).1.stopped = false)
  ∧ (∀ s : WSState, (ws_connect s).stop_event = s.stop_event
        ∧ (on_open s).stop_event = s.stop_event
        ∧ (on_close s).stop_event = s.stop_event
        ∧ (∀ d, ((s.send d).1).stop_event = s.stop_event)
        ∧ (stopState s).stop_event = true) := by
  refine ⟨?_, ?_, ?_, ?_⟩
  · intro fuel script s a h
    cases fuel with
    | zero => rfl
    | succ n => simp [wsRun, h]
  · intro fuel script s a h0 h1
    induction fuel generalizing s a with
    | zero =>
      simp only [wsRun] at h1
      exact absurd h1 (by simp [h0])
    | succ n ih =>
      simp only [wsRun, h0, Bool.false_eq_true, if_false] at h1
      rcases hsc : script a with _ | _
      · rw [hsc] at h1
        simp only [Bool.false_eq_true, if_false] at h1
        have hs1 : (on_close (on_open (ws_connect s))).stopped = false := by
          simpa [WSState.stopped, on_close, on_open, ws_connect] using h0
        exact ih _ _ hs1 h1
      · exact ⟨a, hsc⟩
  · intro fuel s a h0
    induction fuel generalizing s a with
    | zero =>
      simp only [wsRun]
      exact ⟨rfl, h0⟩
    | succ n ih =>
      simp only [wsRun, h0, Bool.false_eq_true, if_false]
      have hs1 : (on_close (on_open (ws_connect s))).stopped = false := by
        simpa [WSState.stopped, on_close, on_open, ws_connect] using h0
      obtain ⟨hcount, hstop⟩ := ih _ (a + 1) hs1
      refine ⟨by rw [hcount]; omega, hstop⟩
  · intro s
    refine ⟨rfl, rfl, rfl, fun d => ?_, rfl⟩
    unfold WSState.send
    split <;> rfl

/-- Concrete instances of C8: a stopped handler returns immediately with
no further attempts; a stop request during episode 0 is the only way the
loop ends stopped; three iterations without a stop request make three
connection attempts and leave the loop unstopped. -/
theorem reconnect_loop_stop_semantics_witness :
    wsRun 5 (fun _ => false) ⟨false, true, true⟩ 2 = (⟨false, true, true⟩, 2)
  ∧ (∃ k, (fun k => decide (k = 0)) k = true)
  ∧ ((wsRun 3 (fun _ => false) WSState.init 0).2 = 0 + 3
       ∧ (wsRun 3 (fun _ => false) WSState.init 0).1.stopped = false)
  ∧ (∀ d, ((WSState.init.send d).1).stop_event = WSState.init.stop_event) :=
  ⟨reconnect_loop_stop_semantics.1 5 (fun _ => false) ⟨false, true, true⟩ 2
     rfl,
   reconnect_loop_stop_semantics.2.1 1 (fun k => decide (k = 0)) WSState.init
     0 rfl (by decide),
   reconnect_loop_stop_semantics.2.2.1 3 WSState.init 0 rfl,
   (reconnect_loop_stop_semantics.2.2.2 WSState.init).2.2.2.1⟩

/-! ## C9: `stop()` -/

/-- C9 counterexample: calling `stop()` on a handler that has never
connected (so `self.ws` is still `None`, as after `__init__`) raises
`AttributeError` from `self.ws.close()` instead of returning without
error; the stop event is set before the failure. -/
theorem stop_without_connection_raises :
    WSState.init.stop = .attributeError ⟨false, false, true⟩ := by decide

/-- C9 (amended): `stop()` from any state first sets the stop event
(entering STOPPED) and then closes the connection; when a connection
object exists this returns normally with the socket closed, but when no
connection has ever been established (`ws` is `None`) the close step
raises `AttributeError` — `stop()` does not succeed without error in that
case, although the stop event is set on every path. -/
theorem stop_behavior (s : WSState) :
    (s.ws_present = true → s.stop = .ok ⟨false, s.ws_present, true⟩)
  ∧ (s.ws_present = false →
        s.stop = .attributeError ⟨s.ws_opened, s.ws_present, true⟩)
  ∧ (∀ s2, s.stop = .ok s2 → s2.stop_event = true ∧ s2.ws_opened = false)
  ∧ (∀ s2, s.stop = .attributeError s2 → s2.stop_event = true) := by
  refine ⟨fun h => ?_, fun h => ?_, fun s2 h => ?_, fun s2 h => ?_⟩
  · simp [WSState.stop, h]
  · simp [WSState.stop, h]
  · dsimp only [WSState.stop] at h
    split at h
    · injection h with h
      rw [← h]
      exact ⟨rfl, rfl⟩
    · exact absurd h (by simp)
  · dsimp only [WSState.stop] at h
    split at h
    · exact absurd h (by simp)
    · injection h with h
      rw [← h]

/-- Concrete instance of amended C9: stopping a connected handler closes
the socket and sets the stop event. -/
theorem stop_behavior_witness :
    (⟨true, true, false⟩ : WSState).stop = .ok ⟨false, true, true⟩ :=
  (stop_behavior ⟨true, true, false⟩).1 rfl

/-! ## C10: only the Forever adapter is mounted -/

/-- C10: every request the module session resolves — in particular any
`http://` or `https://` URL — is handled by `forever_adapter`, the
adapter built with `CacheForeverHeuristic`; `basic_adapter`, the
Normal-policy adapter constructed on line 27, is mounted under no scheme,
so server-driven revalidation is never performed by this program. -/
theorem forever_adapter_only_mounted (url : String) :
    (∀ a, get_adapter url = some a → a = forever_adapter)
  ∧ ((pyStartsWith url "http://" = true ∨ pyStartsWith url "https://" = true)
        → get_adapter url = some forever_adapter)
  ∧ sessionMounts.map Prod.snd = [forever_adapter, forever_adapter]
  ∧ basic_adapter ∉ sessionMounts.map Prod.snd
  ∧ basic_adapter ≠ forever_adapter := by
  have hres : ∀ a, get_adapter url = some a → a = forever_adapter := by
    intro a h
    unfold get_adapter at h
    rcases hf : sessionMounts.find? (fun p => pyStartsWith url p.1) with _ | p
    · rw [hf] at h
      exact absurd h (by simp)
    · rw [hf] at h
      have hmem := List.mem_of_find?_eq_some hf
      have h2 : p.2 = a := by simpa using h
      rw [← h2]
      simp only [sessionMounts, List.mem_cons, List.mem_singleton] at hmem
      rcases hmem with hm | hm | hm
      · rw [hm]
      · rw [hm]
      · cases hm
  refine ⟨hres, fun hscheme => ?_, rfl, by decide, by decide⟩
  have hsome : (sessionMounts.find? (fun p => pyStartsWith url p.1)).isSome := by
    rw [List.find?_isSome]
    rcases hscheme with h | h
    · exact ⟨("http://", forever_adapter), by simp [sessionMounts], h⟩
    · exact ⟨("https://", forever_adapter), by simp [sessionMounts], h⟩
  rcases hf : sessionMounts.find? (fun p => pyStartsWith url p.1) with _ | p
  · rw [hf] at hsome
    exact absurd hsome (by simp)
  · have : get_adapter url = some p.2 := by
      unfold get_adapter
      rw [hf]
      rfl
    rw [this, hres p.2 this]

/-- Concrete instance of C10: both an `http://` and an `https://` URL
resolve to the Forever adapter. -/
theorem forever_adapter_only_mounted_witness :
    get_adapter "http://en.wikipedia.org/wiki/X" = some forever_adapter
  ∧ get_adapter "https://en.wikipedia.org/wiki/X" = some forever_adapter :=
  ⟨(forever_adapter_only_mounted "http://en.wikipedia.org/wiki/X").2.1
     (Or.inl (by decide)),
   (forever_adapter_only_mounted "https://en.wikipedia.org/wiki/X").2.1
     (Or.inr (by decide))⟩

end Ricecooker
